import Mathlib

/-!
# TraceCam — verification of the capture-and-record pipeline

Shallow embedding of the TraceCam capture pipeline (photo capture, record
store, geodetic derivation, CSV export, geocode debounce) and proofs about
it.  The definitions mirror the latest variant of the application module
(the one containing `decipherLocation`, `decimalToDMS`, the quota retry in
`savePhotos` and the debounced `reverseGeocode`); machine numbers are
modelled as rationals, nullable values as `Option`, and the DOM/storage
collaborators as explicit parameters.  The unguarded quota-retry write in
`savePhotos` can throw out of `capturePhoto`; that exception path is kept
(`SavePhotosResult.threw`, `CaptureResult.quotaThrow`): it aborts a
capture between the photo append and the log append.  Decimal rendering of numbers in the
CSV is abstracted by `ratCell`; no claim below depends on the digits of
that rendering.
-/

namespace TraceCam

/-- Settings struct (`state.settings` of the source, including the later
`fullResolution` / `showLocationDecipher` fields). -/
structure Settings where
  watermarkEnabled : Bool
  coordsOnImage : Bool
  timestampOnImage : Bool
  autoSave : Bool
  fullResolution : Bool
  showLocationDecipher : Bool
  projectName : String
  operatorName : String
deriving Repr, DecidableEq

/-- The initial settings of the application (`state.settings` literal). -/
def defaultSettings : Settings where
  watermarkEnabled := false
  coordsOnImage := true
  timestampOnImage := true
  autoSave := true
  fullResolution := true
  showLocationDecipher := true
  projectName := ""
  operatorName := ""

/-- One component of a DMS coordinate, as built by `toDMS` inside
`decimalToDMS`.  The source stores `seconds` as the result of
`toFixed(2)`; we keep the rounded rational value. -/
structure DMSComponent where
  degrees : ℤ
  minutes : ℤ
  seconds : ℚ
  direction : String
deriving Repr, DecidableEq

/-- Round a rational to 2 decimal places (the `toFixed(2)` of the source,
on the exact rational model: nearest multiple of 1/100, ties up). -/
def roundTo2 (q : ℚ) : ℚ := (⌊q * 100 + 1 / 2⌋ : ℚ) / 100

/-- The inner `toDMS` helper of `decimalToDMS`: degrees/minutes by floor,
seconds rounded to two decimals, direction by sign. -/
def toDMS (decimal : ℚ) (isLat : Bool) : DMSComponent :=
  let absolute := |decimal|
  let degrees := ⌊absolute⌋
  let minutesDecimal := (absolute - degrees) * 60
  let minutes := ⌊minutesDecimal⌋
  let seconds := roundTo2 ((minutesDecimal - minutes) * 60)
  let direction :=
    if isLat then (if 0 ≤ decimal then "N" else "S")
    else (if 0 ≤ decimal then "E" else "W")
  ⟨degrees, minutes, seconds, direction⟩

/-- Pair of DMS components returned by `decimalToDMS`. -/
structure DMSPair where
  latitude : DMSComponent
  longitude : DMSComponent
deriving Repr, DecidableEq

/-- `decimalToDMS(lat, lng)` of the source. -/
def decimalToDMS (lat lng : ℚ) : DMSPair :=
  ⟨toDMS lat true, toDMS lng false⟩

/-- Standard decimal reading of a DMS component (used to state the
round-trip property: degrees + minutes/60 + seconds/3600, negated for
S/W directions). -/
def dmsToDecimal (d : DMSComponent) : ℚ :=
  (if d.direction = "S" ∨ d.direction = "W" then -1 else 1) *
    ((d.degrees : ℚ) + (d.minutes : ℚ) / 60 + d.seconds / 3600)

/-- The climate-band classification of `decipherLocation` (`locationType`
variable): the exact cascade of the source. -/
def locationType (lat : ℚ) : String :=
  if 66.5 ≤ lat then "Arctic region"
  else if lat ≤ -66.5 then "Antarctic region"
  else if 23.5 ≤ lat ∧ lat ≤ 66.5 then "Northern temperate zone"
  else if -23.5 ≤ lat ∧ lat ≤ 23.5 then "Tropical zone"
  else if -66.5 ≤ lat ∧ lat ≤ -23.5 then "Southern temperate zone"
  else "Unknown area"

/-- The hemisphere mirror of a climate-band label (Arctic ↔ Antarctic,
Northern ↔ Southern temperate, Tropical and Unknown fixed), used to state
the mirroring part of the classification claim. -/
def mirrorZone (z : String) : String :=
  if z = "Arctic region" then "Antarctic region"
  else if z = "Antarctic region" then "Arctic region"
  else if z = "Northern temperate zone" then "Southern temperate zone"
  else if z = "Southern temperate zone" then "Northern temperate zone"
  else z

/-- The visual elements `addMetadataOverlay` can draw on the frame. -/
inductive OverlayElem where
  | timestampLines
  | coordsLine
  | watermarkBanner
deriving Repr, DecidableEq

/-- `addMetadataOverlay`: timestamp lines when `timestampOnImage`, a
coordinate line when `coordsOnImage` and a position exists, and the
prominent watermark banner when `watermarkEnabled`. -/
def addMetadataOverlay (s : Settings) (hasFix : Bool) : List OverlayElem :=
  (if s.timestampOnImage then [OverlayElem.timestampLines] else []) ++
  (if s.coordsOnImage && hasFix then [OverlayElem.coordsLine] else []) ++
  (if s.watermarkEnabled then [OverlayElem.watermarkBanner] else [])

/-- The overlay actually drawn by `capturePhoto`: the source calls
`addMetadataOverlay` only when `timestampOnImage || coordsOnImage`. -/
def captureOverlay (s : Settings) (hasFix : Bool) : List OverlayElem :=
  if s.timestampOnImage || s.coordsOnImage then addMetadataOverlay s hasFix
  else []

/-- A geolocation fix (`state.position.coords`). -/
structure PositionFix where
  latitude : ℚ
  longitude : ℚ
  accuracy : Option ℚ
  altitude : Option ℚ
  heading : Option ℚ
  speed : Option ℚ
deriving Repr, DecidableEq

/-- The location snapshot embedded in a photo record. -/
structure LocationSnap where
  latitude : ℚ
  longitude : ℚ
  accuracy : Option ℚ
  altitude : Option ℚ
  heading : Option ℚ
  speed : Option ℚ
  dms : Option DMSPair
deriving Repr, DecidableEq

/-- The `state.locationInfo` snapshot produced by `decipherLocation`. -/
structure LocationInfo where
  dms : DMSPair
  hemisphereLat : String
  hemisphereLng : String
  zone : String
  seasonHint : String
deriving Repr, DecidableEq

/-- A Photo Record as assembled by `capturePhoto`. -/
structure PhotoRecord where
  id : String
  sessionId : String
  imageData : String
  imageWidth : ℕ
  imageHeight : ℕ
  fileSizeKB : ℤ
  quality : String
  timestamp : String
  timestampLocal : String
  timezone : String
  location : Option LocationSnap
  address : String
  projectName : String
  operatorName : String
  settings : Settings
deriving Repr, DecidableEq

/-- A Log Record as assembled by `addLog`. -/
structure LogRecord where
  id : String
  timestamp : String
  timestampLocal : String
  timezone : String
  latitude : Option ℚ
  longitude : Option ℚ
  accuracy : Option ℚ
  altitude : Option ℚ
  address : String
  sessionId : String
  projectName : String
  operatorName : String
deriving Repr, DecidableEq

/-- The log-record projection of a photo built inside `addLog`
(`photo.location?.latitude` and friends become `Option` maps). -/
def mkLog (photo : PhotoRecord) : LogRecord where
  id := photo.id
  timestamp := photo.timestamp
  timestampLocal := photo.timestampLocal
  timezone := photo.timezone
  latitude := photo.location.map (·.latitude)
  longitude := photo.location.map (·.longitude)
  accuracy := photo.location.bind (·.accuracy)
  altitude := photo.location.bind (·.altitude)
  address := photo.address
  sessionId := photo.sessionId
  projectName := photo.projectName
  operatorName := photo.operatorName

/-- `addLog`: prepend the projected log record (`logs.unshift`). -/
def addLog (photo : PhotoRecord) (logs : List LogRecord) : List LogRecord :=
  mkLog photo :: logs

/-- `saveLogs` serializes the whole log collection: the snapshot written
to storage is the collection itself, with no capacity slice. -/
def saveLogsSnapshot (logs : List LogRecord) : List LogRecord := logs

/-- Application state (the fields of `state` that the capture pipeline
reads or writes; `stream` is whether a camera stream is live, and
`addressText` is the text of the address element that `capturePhoto`
snapshots). -/
structure AppState where
  stream : Bool
  position : Option PositionFix
  photos : List PhotoRecord
  logs : List LogRecord
  sessionId : String
  settings : Settings
  locationInfo : Option LocationInfo
  addressText : String
deriving Repr, DecidableEq

/-- Environment inputs of one capture: generated id, wall-clock strings,
negotiated camera resolution and the encoded frame. -/
structure CaptureEnv where
  freshId : String
  nowISO : String
  nowLocal : String
  timezone : String
  actualWidth : ℕ
  actualHeight : ℕ
  imageData : String
deriving Repr, DecidableEq

/-- Outcome of a capture attempt: the early `Camera not ready` error
toast; a capture aborted by the uncaught exception of the quota-retry
write inside `savePhotos` (thrown after the photo was prepended but
before `addLog` runs); or a completed capture. -/
inductive CaptureResult where
  | cameraNotReady
  | quotaThrow (photo : PhotoRecord)
  | captured (photo : PhotoRecord)
deriving Repr, DecidableEq

/-- JS `Math.round` on the rational model (round half up). -/
def jsRound (q : ℚ) : ℤ := ⌊q + 1 / 2⌋

/-- The photo record literal assembled by `capturePhoto`. -/
def mkPhoto (env : CaptureEnv) (s : AppState) : PhotoRecord :=
  let quality : ℚ := if s.settings.fullResolution then 1 else 17 / 20
  { id := env.freshId
    sessionId := s.sessionId
    imageData := env.imageData
    imageWidth := env.actualWidth
    imageHeight := env.actualHeight
    fileSizeKB := jsRound ((env.imageData.length * 3 : ℚ) / 4 / 1024)
    quality := if quality = 1 then "Full" else "High"
    timestamp := env.nowISO
    timestampLocal := env.nowLocal
    timezone := env.timezone
    location := s.position.map fun p =>
      { latitude := p.latitude
        longitude := p.longitude
        accuracy := p.accuracy
        altitude := p.altitude
        heading := p.heading
        speed := p.speed
        dms := s.locationInfo.map (·.dms) }
    address := s.addressText
    projectName := s.settings.projectName
    operatorName := s.settings.operatorName
    settings := s.settings }

/-- Result of one `localStorage.setItem` attempt. -/
inductive StorageOutcome where
  | ok
  | quotaExceeded
  | otherError
deriving Repr, DecidableEq

/-- Result of `savePhotos`: the in-memory collection afterwards, the
snapshot actually persisted (if any write succeeded), the sequence of
attempted writes, and whether the call threw.  The first write sits in a
try/catch, so its failure is swallowed; the quota-retry write is not
wrapped, so its failure escapes `savePhotos` as an exception
(`threw = true`). -/
structure SavePhotosResult where
  photosAfter : List PhotoRecord
  persisted : Option (List PhotoRecord)
  attempts : List (List PhotoRecord)
  threw : Bool
deriving Repr, DecidableEq

/-- `savePhotos`: write the 50 most-recent photos; on a quota rejection
trim the in-memory collection to the 20 most-recent and retry once (a
failure of that unguarded retry propagates to the caller); any other
failure is caught, leaving the collection as is and persisting
nothing. -/
def savePhotos (store : List PhotoRecord → StorageOutcome)
    (photos : List PhotoRecord) : SavePhotosResult :=
  let photosToSave := photos.take 50
  match store photosToSave with
  | StorageOutcome.ok => ⟨photos, some photosToSave, [photosToSave], false⟩
  | StorageOutcome.quotaExceeded =>
      let trimmed := photos.take 20
      match store trimmed with
      | StorageOutcome.ok => ⟨trimmed, some trimmed, [photosToSave, trimmed], false⟩
      | _ => ⟨trimmed, none, [photosToSave, trimmed], true⟩
  | StorageOutcome.otherError => ⟨photos, none, [photosToSave], false⟩

/-- `capturePhoto`: fail immediately when no stream is live; otherwise
assemble the photo, prepend it to the photo collection, run
`savePhotos` on the updated collection, and only then prepend the
projected log record (`addLog`).  When the quota-retry write inside
`savePhotos` throws, the exception aborts the capture between the photo
append and the log append: the (trimmed) in-memory photos keep the new
photo but no log record is created. -/
def capturePhoto (store : List PhotoRecord → StorageOutcome)
    (env : CaptureEnv) (s : AppState) : AppState × CaptureResult :=
  if !s.stream then (s, CaptureResult.cameraNotReady)
  else
    let photo := mkPhoto env s
    let saveRes := savePhotos store (photo :: s.photos)
    if saveRes.threw then
      ({ s with photos := saveRes.photosAfter }, CaptureResult.quotaThrow photo)
    else
      ({ s with
          photos := saveRes.photosAfter
          logs := addLog photo s.logs },
       CaptureResult.captured photo)

/-- Double every double quote in a string (the `replace` of all quote
characters in the address cell of `exportLogs`). -/
def escapeQuotes (s : String) : String :=
  ⟨s.data.foldr (fun c acc => if c = '"' then '"' :: '"' :: acc else c :: acc) []⟩

/-- The CSV escaping `exportLogs` applies to the address cell: quotes
doubled and the whole field wrapped in double quotes. -/
def csvEscape (s : String) : String := "\"" ++ escapeQuotes s ++ "\""

/-- Decimal rendering of a rational CSV number (abstraction of the JS
number-to-string coercion inside `join`). -/
def ratCell (q : ℚ) : String := toString q

/-- The `value || &quot;&quot;` idiom on a nullable numeric field: empty
when the field is absent or falsy (zero). -/
def numCell (v : Option ℚ) : String :=
  match v with
  | none => ""
  | some q => if q = 0 then "" else ratCell q

/-- The `value || &quot;&quot;` idiom on a string field (identity except
that the empty string stays empty). -/
def strCell (s : String) : String := if s = "" then "" else s

/-- The fixed header cells of the exported CSV. -/
def csvHeaders : List String :=
  ["ID", "Timestamp (UTC)", "Timestamp (Local)", "Timezone",
   "Latitude", "Longitude", "Accuracy (m)", "Altitude (m)",
   "Address", "Session ID", "Project", "Operator"]

/-- The 12 cells `exportLogs` emits for one log record. -/
def csvRow (log : LogRecord) : List String :=
  [log.id, log.timestamp, log.timestampLocal, log.timezone,
   numCell log.latitude, numCell log.longitude,
   numCell log.accuracy, numCell log.altitude,
   csvEscape (strCell log.address),
   log.sessionId, strCell log.projectName, strCell log.operatorName]

/-- The lines of the CSV: joined header cells, then one joined row per
log in store order. -/
def csvLines (logs : List LogRecord) : List String :=
  String.intercalate (",") csvHeaders ::
    logs.map (fun log => String.intercalate (",") (csvRow log))

/-- `exportLogs`: an empty collection is rejected (error toast, no file);
otherwise the produced file is the newline join of the CSV lines. -/
def exportLogs (logs : List LogRecord) : Option String :=
  if logs.isEmpty then none
  else some (String.intercalate ("\n") (csvLines logs))

/-- A reverse-geocode request as issued by the debounced
`reverseGeocode`: the time the timer fires and the coordinates captured
by the scheduling call. -/
structure GeoRequest where
  time : ℕ
  lat : ℚ
  lng : ℚ
deriving Repr, DecidableEq

/-- Timer semantics of the debounced `reverseGeocode`: each call clears
the pending timeout and schedules a new one `delay` later carrying its
own coordinates; a pending timer whose fire time has passed before the
next call has already fired; the final pending timer fires at the end. -/
def runDebounce (delay : ℕ) :
    List (ℕ × ℚ × ℚ) → Option (ℕ × ℚ × ℚ) → List GeoRequest
  | [], none => []
  | [], some (ft, la, ln) => [⟨ft, la, ln⟩]
  | (t, la, ln) :: rest, none =>
      runDebounce delay rest (some (t + delay, la, ln))
  | (t, la, ln) :: rest, some (ft, pla, pln) =>
      if ft ≤ t then
        ⟨ft, pla, pln⟩ :: runDebounce delay rest (some (t + delay, la, ln))
      else runDebounce delay rest (some (t + delay, la, ln))

/-- The reverse-geocode requests issued for a time-ordered burst of
location fixes. -/
def geocodeRequests (delay : ℕ) (calls : List (ℕ × ℚ × ℚ)) : List GeoRequest :=
  runDebounce delay calls none

/-- A concrete capture environment used to evaluate the theorems. -/
def sampleEnv : CaptureEnv where
  freshId := "IMG-1-A"
  nowISO := "2026-10-11T00:00:00.000Z"
  nowLocal := "10/11/2026, 00:00:00"
  timezone := "UTC"
  actualWidth := 1920
  actualHeight := 1080
  imageData := "data"

/-- A concrete state with a live camera stream. -/
def sampleReadyState : AppState where
  stream := true
  position := none
  photos := []
  logs := []
  sessionId := "TC-1-B"
  settings := defaultSettings
  locationInfo := none
  addressText := "Address unavailable"

/-- The same state with the camera stream gone. -/
def sampleOffState : AppState := { sampleReadyState with stream := false }

/-- A concrete photo record. -/
def samplePhoto : PhotoRecord := mkPhoto sampleEnv sampleReadyState

/-- A concrete log record. -/
def sampleLog : LogRecord where
  id := "IMG-1-A"
  timestamp := "2026-10-11T00:00:00.000Z"
  timestampLocal := "10/11/2026, 00:00:00"
  timezone := "UTC"
  latitude := some 1
  longitude := some 2
  accuracy := some 5
  altitude := none
  address := "Somewhere"
  sessionId := "TC-1-B"
  projectName := "P"
  operatorName := "O"

/-- A log record whose project name contains a comma. -/
def commaLog : LogRecord := { sampleLog with projectName := "Alpha,Beta" }

/-- A storage layer that accepts every write. -/
def storeOk : List PhotoRecord → StorageOutcome := fun _ => StorageOutcome.ok

/-- A storage layer that rejects every write for being over quota. -/
def storeQuota : List PhotoRecord → StorageOutcome :=
  fun _ => StorageOutcome.quotaExceeded

/-- C1 counterexample: when the photo write is rejected for quota and
the unguarded trimmed retry also fails, the exception aborts
`capturePhoto` after the photo was prepended (and the collection trimmed
to 20) but before `addLog`: the in-memory collection retains the new
photo while the log collection is left unchanged — a Photo Record with
no matching Log Record. -/
theorem captureQuotaThrowNoLog :
    (capturePhoto storeQuota sampleEnv sampleReadyState).1.photos =
      [mkPhoto sampleEnv sampleReadyState] ∧
    (capturePhoto storeQuota sampleEnv sampleReadyState).1.logs = [] ∧
    (capturePhoto storeQuota sampleEnv sampleReadyState).2 =
      CaptureResult.quotaThrow (mkPhoto sampleEnv sampleReadyState) :=
  ⟨rfl, rfl, rfl⟩

/-- C1 amended: whenever a capture appends a Photo Record and the
persistence of the photo collection does not throw (the first write
succeeds, fails for a non-quota reason, or the once-retried trimmed
write after a quota rejection succeeds), the same capture prepends a Log
Record with the same id and the same session id; and persisting logs
serializes the whole log collection with no capacity slice.  Only the
path where the quota retry itself throws aborts the capture between the
photo append and the log append. -/
theorem captureAppendsMatchingLog (store : List PhotoRecord → StorageOutcome)
    (env : CaptureEnv) (s : AppState)
    (hs : s.stream = true)
    (hnothrow : (savePhotos store (mkPhoto env s :: s.photos)).threw = false) :
    ∃ photo : PhotoRecord,
      capturePhoto store env s =
        ({ s with
            photos := (savePhotos store (photo :: s.photos)).photosAfter
            logs := mkLog photo :: s.logs },
         CaptureResult.captured photo) ∧
      (mkLog photo).id = photo.id ∧
      (mkLog photo).sessionId = photo.sessionId ∧
      ∀ logs : List LogRecord, saveLogsSnapshot logs = logs := by
  refine ⟨mkPhoto env s, ?_, rfl, rfl, fun _ => rfl⟩
  simp [capturePhoto, hs, addLog, hnothrow]

/-- Witness for the amended C1 at a concrete environment, state and an
accepting store. -/
theorem captureAppendsMatchingLogWitness :
    sampleReadyState.stream = true ∧
    (savePhotos storeOk (mkPhoto sampleEnv sampleReadyState ::
      sampleReadyState.photos)).threw = false ∧
    ∃ photo : PhotoRecord,
      capturePhoto storeOk sampleEnv sampleReadyState =
        ({ sampleReadyState with
            photos := (savePhotos storeOk (photo :: sampleReadyState.photos)).photosAfter
            logs := mkLog photo :: sampleReadyState.logs },
         CaptureResult.captured photo) ∧
      (mkLog photo).id = photo.id ∧
      (mkLog photo).sessionId = photo.sessionId ∧
      ∀ logs : List LogRecord, saveLogsSnapshot logs = logs :=
  ⟨rfl, rfl, captureAppendsMatchingLog storeOk sampleEnv sampleReadyState rfl rfl⟩

/-- C3: for any storage layer, a capture triggered while the camera
stream is absent fails immediately with the camera-not-ready report, and
both the photo and the log collection are unchanged. -/
theorem captureWithoutStreamNoop (store : List PhotoRecord → StorageOutcome)
    (env : CaptureEnv) (s : AppState)
    (hs : s.stream = false) :
    capturePhoto store env s = (s, CaptureResult.cameraNotReady) ∧
    (capturePhoto store env s).1.photos = s.photos ∧
    (capturePhoto store env s).1.logs = s.logs := by
  have h : capturePhoto store env s = (s, CaptureResult.cameraNotReady) := by
    simp [capturePhoto, hs]
  exact ⟨h, by rw [h], by rw [h]⟩

/-- Witness for C3 at a concrete environment and state. -/
theorem captureWithoutStreamNoopWitness :
    sampleOffState.stream = false ∧
    capturePhoto storeOk sampleEnv sampleOffState =
      (sampleOffState, CaptureResult.cameraNotReady) :=
  ⟨rfl, (captureWithoutStreamNoop storeOk sampleEnv sampleOffState rfl).1⟩

/-- C5 counterexample: the Project cell of a CSV row is emitted raw, not
double-quote-escaped, so a comma inside the project name is
indistinguishable from a cell separator. -/
theorem csvProjectCellNotEscaped :
    commaLog.projectName = "Alpha,Beta" ∧
    (csvRow commaLog)[10]? = some ("Alpha,Beta") ∧
    csvEscape ("Alpha,Beta") = "\"Alpha,Beta\"" ∧
    ("Alpha,Beta" : String) ≠ "\"Alpha,Beta\"" := by
  exact ⟨rfl, rfl, rfl, by decide⟩

/-- C5 amended: only the Address cell is double-quote-escaped (embedded
quotes doubled, field wrapped in quotes); every other cell — among them
ID, Timestamp(Local), Timezone, Project and Operator — is emitted raw. -/
theorem csvOnlyAddressEscaped (log : LogRecord) :
    (csvRow log)[8]? = some (csvEscape (strCell log.address)) ∧
    (csvRow log)[0]? = some log.id ∧
    (csvRow log)[1]? = some log.timestamp ∧
    (csvRow log)[2]? = some log.timestampLocal ∧
    (csvRow log)[3]? = some log.timezone ∧
    (csvRow log)[9]? = some log.sessionId ∧
    (csvRow log)[10]? = some (strCell log.projectName) ∧
    (csvRow log)[11]? = some (strCell log.operatorName) :=
  ⟨rfl, rfl, rfl, rfl, rfl, rfl, rfl, rfl⟩

/-- The settings that exhibit the missing watermark: watermark on, both
metadata overlays off. -/
def watermarkOnlySettings : Settings :=
  { defaultSettings with
      watermarkEnabled := true
      coordsOnImage := false
      timestampOnImage := false }

/-- C8 counterexample: with the watermark enabled but both metadata
overlays disabled, `capturePhoto` never calls `addMetadataOverlay`, so
no watermark banner is drawn on the composited image. -/
theorem watermarkSkippedWithoutMetadata :
    watermarkOnlySettings.watermarkEnabled = true ∧
    captureOverlay watermarkOnlySettings true = [] ∧
    OverlayElem.watermarkBanner ∉ captureOverlay watermarkOnlySettings true := by
  refine ⟨rfl, rfl, ?_⟩
  decide

/-- C8 amended: the watermark banner is drawn whenever `watermarkEnabled`
is set and at least one of the timestamp or coordinate overlays is also
enabled (the watermark drawing lives inside `addMetadataOverlay`, which
runs only in that case). -/
theorem watermarkDrawnWithMetadata (s : Settings) (hasFix : Bool)
    (hw : s.watermarkEnabled = true)
    (hm : s.timestampOnImage = true ∨ s.coordsOnImage = true) :
    OverlayElem.watermarkBanner ∈ captureOverlay s hasFix := by
  unfold captureOverlay addMetadataOverlay
  rcases hm with h | h <;> simp [h, hw]

/-- Witness for the amended C8 at concrete settings. -/
theorem watermarkDrawnWithMetadataWitness :
    OverlayElem.watermarkBanner ∈
      captureOverlay { defaultSettings with watermarkEnabled := true } true :=
  watermarkDrawnWithMetadata _ _ rfl (Or.inl rfl)

/-- C9: when two location fixes arrive within one geocode debounce
window, exactly one reverse-geocode request is issued; it fires one full
window after the second fix and carries the second fix coordinates. -/
theorem debounceCoalescesTwoFixes (delay t1 t2 : ℕ) (la1 ln1 la2 ln2 : ℚ)
    (_horder : t1 ≤ t2) (hwin : t2 < t1 + delay) :
    geocodeRequests delay [(t1, la1, ln1), (t2, la2, ln2)] =
      [⟨t2 + delay, la2, ln2⟩] := by
  have hn : ¬ (t1 + delay ≤ t2) := by omega
  simp [geocodeRequests, runDebounce, hn]

/-- Witness for C9: fixes 200 ms apart under a 1000 ms window. -/
theorem debounceCoalescesTwoFixesWitness :
    geocodeRequests 1000 [(0, 1, 2), (200, 3, 4)] = [⟨1200, 3, 4⟩] :=
  debounceCoalescesTwoFixes 1000 0 200 1 2 3 4 (by decide) (by decide)

/-- C4: export of an empty log collection is rejected, producing no file;
export of a non-empty collection is the newline join of exactly one
12-column header line plus one comma-joined row per log, in store order
(newest-first). -/
theorem exportLogsSpec :
    exportLogs [] = none ∧
    csvHeaders.length = 12 ∧
    ∀ logs : List LogRecord, logs ≠ [] →
      exportLogs logs = some (String.intercalate ("\n") (csvLines logs)) ∧
      (csvLines logs).length = logs.length + 1 ∧
      (csvLines logs)[0]? = some (String.intercalate (",") csvHeaders) ∧
      ∀ i, (hi : i < logs.length) →
        (csvLines logs)[i + 1]? =
          some (String.intercalate (",") (csvRow logs[i])) := by
  refine ⟨rfl, rfl, fun logs h => ?_⟩
  have hne : logs.isEmpty = false := by
    simpa [List.isEmpty_iff] using h
  refine ⟨by simp [exportLogs, hne], by simp [csvLines], by simp [csvLines],
    fun i hi => ?_⟩
  simp [csvLines, List.getElem?_map, List.getElem?_eq_getElem hi]

/-- Witness for C4 at a concrete one-element log collection. -/
theorem exportLogsSpecWitness :
    exportLogs [sampleLog] = some (String.intercalate ("\n") (csvLines [sampleLog])) ∧
    (csvLines [sampleLog]).length = [sampleLog].length + 1 :=
  ⟨(exportLogsSpec.2.2 [sampleLog] (List.cons_ne_nil _ _)).1,
   (exportLogsSpec.2.2 [sampleLog] (List.cons_ne_nil _ _)).2.1⟩

/-- C2: persisting after an append writes the 50 most-recently-appended
photos newest-first (the in-memory collection, built by prepends from the
append history, is untouched on success); a quota rejection trims to the
20 most-recent and retries exactly once (exactly two attempted writes). -/
theorem savePhotosSpec (store : List PhotoRecord → StorageOutcome)
    (history : List PhotoRecord) :
    (store (history.reverse.take 50) = StorageOutcome.ok →
      (savePhotos store history.reverse).persisted = some (history.reverse.take 50) ∧
      history.reverse.take 50 = (history.drop (history.length - 50)).reverse ∧
      (history.reverse.take 50).length = min history.length 50 ∧
      (savePhotos store history.reverse).photosAfter = history.reverse) ∧
    (store (history.reverse.take 50) = StorageOutcome.quotaExceeded →
      (savePhotos store history.reverse).attempts =
        [history.reverse.take 50, history.reverse.take 20] ∧
      (savePhotos store history.reverse).photosAfter = history.reverse.take 20 ∧
      history.reverse.take 20 = (history.drop (history.length - 20)).reverse) := by
  constructor
  · intro h
    refine ⟨?_, List.take_reverse, ?_, ?_⟩
    · simp [savePhotos, h]
    · simp [List.length_take, min_comm]
    · simp [savePhotos, h]
  · intro h
    refine ⟨?_, ?_, List.take_reverse⟩ <;>
      rcases h2 : store (history.reverse.take 20) with _ | _ | _ <;>
        simp [savePhotos, h, h2]

/-- Witness for C2 at a one-photo history under an accepting and a
quota-rejecting store. -/
theorem savePhotosSpecWitness :
    storeOk ([samplePhoto].reverse.take 50) = StorageOutcome.ok ∧
    (savePhotos storeOk [samplePhoto].reverse).persisted =
      some ([samplePhoto].reverse.take 50) ∧
    storeQuota ([samplePhoto].reverse.take 50) = StorageOutcome.quotaExceeded ∧
    (savePhotos storeQuota [samplePhoto].reverse).attempts =
      [[samplePhoto].reverse.take 50, [samplePhoto].reverse.take 20] :=
  ⟨rfl, ((savePhotosSpec storeOk [samplePhoto]).1 rfl).1, rfl,
   ((savePhotosSpec storeQuota [samplePhoto]).2 rfl).1⟩

/-- Evaluation of the climate band on the arctic side. -/
theorem locationTypeArctic {lat : ℚ} (h : 66.5 ≤ lat) :
    locationType lat = "Arctic region" := by
  rw [locationType, if_pos h]

/-- Evaluation of the climate band on the antarctic side. -/
theorem locationTypeAntarctic {lat : ℚ} (h : lat ≤ -66.5) :
    locationType lat = "Antarctic region" := by
  rw [locationType, if_neg (by linarith), if_pos h]

/-- Evaluation of the climate band in the northern temperate range. -/
theorem locationTypeNorthTemperate {lat : ℚ} (h1 : 23.5 ≤ lat) (h2 : lat < 66.5) :
    locationType lat = "Northern temperate zone" := by
  rw [locationType, if_neg (by linarith), if_neg (by linarith),
    if_pos ⟨h1, le_of_lt h2⟩]

/-- Evaluation of the climate band in the tropical range (which reaches
down to −23.5 inclusive in the source cascade). -/
theorem locationTypeTropical {lat : ℚ} (h1 : -23.5 ≤ lat) (h2 : lat < 23.5) :
    locationType lat = "Tropical zone" := by
  rw [locationType, if_neg (by linarith), if_neg (by linarith),
    if_neg (by rintro ⟨a, b⟩; linarith), if_pos ⟨h1, by linarith⟩]

/-- Evaluation of the climate band in the southern temperate range. -/
theorem locationTypeSouthTemperate {lat : ℚ} (h1 : -66.5 < lat) (h2 : lat < -23.5) :
    locationType lat = "Southern temperate zone" := by
  rw [locationType, if_neg (by linarith), if_neg (by linarith),
    if_neg (by rintro ⟨a, b⟩; linarith), if_neg (by rintro ⟨a, b⟩; linarith),
    if_pos ⟨by linarith, by linarith⟩]

/-- C7 counterexample: at the 23.5° boundary the classification is not
mirror-symmetric: +23.5° is classified Northern temperate while −23.5°
is classified Tropical. -/
theorem locationTypeBoundaryAsymmetry :
    locationType (23.5 : ℚ) = "Northern temperate zone" ∧
    locationType (-23.5 : ℚ) = "Tropical zone" ∧
    locationType (-23.5 : ℚ) ≠ mirrorZone (locationType (23.5 : ℚ)) := by
  have h1 : locationType (23.5 : ℚ) = "Northern temperate zone" :=
    locationTypeNorthTemperate (by norm_num) (by norm_num)
  have h2 : locationType (-23.5 : ℚ) = "Tropical zone" :=
    locationTypeTropical (by norm_num) (by norm_num)
  refine ⟨h1, h2, ?_⟩
  rw [h1, h2]
  decide

/-- C7 amended: away from ±23.5° the bands follow absolute latitude
(≥66.5 polar, 23.5–66.5 temperate, <23.5 tropical) and the southern
hemisphere mirrors the northern via sign; at the boundary itself +23.5°
is temperate but −23.5° is tropical, so the mirror property holds for
every latitude except ±23.5°. -/
theorem locationTypeMirror (lat : ℚ) (hp : lat ≠ 23.5) (hn : lat ≠ -23.5) :
    (66.5 ≤ |lat| →
      locationType lat = "Arctic region" ∨ locationType lat = "Antarctic region") ∧
    (23.5 ≤ |lat| ∧ |lat| < 66.5 →
      locationType lat = "Northern temperate zone" ∨
      locationType lat = "Southern temperate zone") ∧
    (|lat| < 23.5 → locationType lat = "Tropical zone") ∧
    locationType (-lat) = mirrorZone (locationType lat) := by
  refine ⟨?_, ?_, ?_, ?_⟩
  · intro h
    rcases abs_cases lat with ⟨heq, hsign⟩ | ⟨heq, hsign⟩
    · exact Or.inl (locationTypeArctic (by linarith))
    · exact Or.inr (locationTypeAntarctic (by linarith))
  · rintro ⟨h1, h2⟩
    rcases abs_cases lat with ⟨heq, hsign⟩ | ⟨heq, hsign⟩
    · exact Or.inl (locationTypeNorthTemperate (by linarith) (by linarith))
    · have hstrict : lat < -23.5 := by
        rcases lt_or_eq_of_le (by linarith : lat ≤ -23.5) with h | h
        · exact h
        · exact absurd h hn
      exact Or.inr (locationTypeSouthTemperate (by linarith) hstrict)
  · intro h
    rcases abs_cases lat with ⟨heq, hsign⟩ | ⟨heq, hsign⟩
    · exact locationTypeTropical (by linarith) (by linarith)
    · exact locationTypeTropical (by linarith) (by linarith)
  · rcases le_or_lt 66.5 lat with h | h
    · rw [locationTypeArctic h, locationTypeAntarctic (by linarith : -lat ≤ -66.5)]
      decide
    rcases le_or_lt lat (-66.5) with h2 | h2
    · rw [locationTypeAntarctic h2, locationTypeArctic (by linarith : 66.5 ≤ -lat)]
      decide
    rcases le_or_lt 23.5 lat with h3 | h3
    · have hstrict : 23.5 < lat := lt_of_le_of_ne h3 (Ne.symm hp)
      rw [locationTypeNorthTemperate h3 h,
        locationTypeSouthTemperate (by linarith) (by linarith)]
      decide
    rcases le_or_lt lat (-23.5) with h4 | h4
    · have hstrict : lat < -23.5 := lt_of_le_of_ne h4 hn
      rw [locationTypeSouthTemperate h2 hstrict,
        locationTypeNorthTemperate (by linarith) (by linarith)]
      decide
    · rw [locationTypeTropical (by linarith) h3,
        locationTypeTropical (by linarith) (by linarith)]
      decide

/-- Witness for the amended C7 at latitude 40°. -/
theorem locationTypeMirrorWitness :
    (40 : ℚ) ≠ 23.5 ∧ (40 : ℚ) ≠ -23.5 ∧
    locationType (-(40 : ℚ)) = mirrorZone (locationType (40 : ℚ)) :=
  ⟨by norm_num, by norm_num,
   (locationTypeMirror 40 (by norm_num) (by norm_num)).2.2.2⟩

/-- Rounding to two decimals moves a value by at most 1/200. -/
theorem roundTo2Close (q : ℚ) : |roundTo2 q - q| ≤ 1 / 200 := by
  rw [roundTo2, abs_le]
  have h1 : (⌊q * 100 + 1 / 2⌋ : ℚ) ≤ q * 100 + 1 / 2 := Int.floor_le _
  have h2 : q * 100 + 1 / 2 - 1 < (⌊q * 100 + 1 / 2⌋ : ℚ) := Int.sub_one_lt_floor _
  constructor <;> linarith

/-- Degrees, minutes and exact seconds recompose to the absolute value. -/
theorem absReconstruct (a : ℚ) :
    ((⌊a⌋ : ℚ) + (⌊(a - (⌊a⌋ : ℚ)) * 60⌋ : ℚ) / 60 +
      (((a - (⌊a⌋ : ℚ)) * 60 - (⌊(a - (⌊a⌋ : ℚ)) * 60⌋ : ℚ)) * 60) / 3600) = a := by
  ring

/-- Decimal reading of a DMS component with a positive direction. -/
theorem dmsToDecimalPos (d : DMSComponent)
    (h : d.direction = "N" ∨ d.direction = "E") :
    dmsToDecimal d = (d.degrees : ℚ) + (d.minutes : ℚ) / 60 + d.seconds / 3600 := by
  rcases h with h | h <;> rw [dmsToDecimal, h] <;>
    rw [if_neg (by decide)] <;> ring

/-- Decimal reading of a DMS component with a negative direction. -/
theorem dmsToDecimalNeg (d : DMSComponent)
    (h : d.direction = "S" ∨ d.direction = "W") :
    dmsToDecimal d = -((d.degrees : ℚ) + (d.minutes : ℚ) / 60 + d.seconds / 3600) := by
  rcases h with h | h <;> rw [dmsToDecimal, h] <;>
    rw [if_pos (by decide)] <;> ring

/-- The component equations and the round-trip bound for one DMS
conversion. -/
theorem toDMSRoundTrip (q : ℚ) (isLat : Bool) :
    (toDMS q isLat).degrees = ⌊|q|⌋ ∧
    (toDMS q isLat).minutes = ⌊(|q| - (⌊|q|⌋ : ℚ)) * 60⌋ ∧
    (toDMS q isLat).seconds =
      roundTo2 (((|q| - (⌊|q|⌋ : ℚ)) * 60 - (⌊(|q| - (⌊|q|⌋ : ℚ)) * 60⌋ : ℚ)) * 60) ∧
    (toDMS q isLat).direction =
      (if isLat then (if 0 ≤ q then "N" else "S")
       else (if 0 ≤ q then "E" else "W")) ∧
    |dmsToDecimal (toDMS q isLat) - q| ≤ 1 / 360000 := by
  refine ⟨rfl, rfl, rfl, rfl, ?_⟩
  have hk := absReconstruct |q|
  have hr := roundTo2Close
    (((|q| - (⌊|q|⌋ : ℚ)) * 60 - (⌊(|q| - (⌊|q|⌋ : ℚ)) * 60⌋ : ℚ)) * 60)
  rw [abs_le] at hr
  rcases le_or_lt 0 q with hq | hq
  · have hdir : (toDMS q isLat).direction = "N" ∨ (toDMS q isLat).direction = "E" := by
      cases isLat <;> simp [toDMS, hq]
    rw [dmsToDecimalPos _ hdir]
    have habs : |q| = q := abs_of_nonneg hq
    simp only [toDMS]
    rw [abs_le]
    constructor <;> linarith
  · have hdir : (toDMS q isLat).direction = "S" ∨ (toDMS q isLat).direction = "W" := by
      cases isLat <;> simp [toDMS, not_le.mpr hq]
    rw [dmsToDecimalNeg _ hdir]
    have habs : |q| = -q := abs_of_neg hq
    simp only [toDMS]
    rw [abs_le]
    constructor <;> linarith

/-- C6: for every latitude/longitude pair, `decimalToDMS` takes degrees
as the floor of the absolute value, minutes as the floor of the scaled
remainder, seconds as the twice-scaled remainder rounded to two decimal
places, direction by sign (N/S for latitude, E/W for longitude), and
reading the DMS components back as a decimal recovers the input to
within 0.01 arcsecond (1/360000 of a degree). -/
theorem decimalToDMSSpec (lat lng : ℚ) :
    ((decimalToDMS lat lng).latitude.degrees = ⌊|lat|⌋ ∧
     (decimalToDMS lat lng).latitude.minutes = ⌊(|lat| - (⌊|lat|⌋ : ℚ)) * 60⌋ ∧
     (decimalToDMS lat lng).latitude.seconds =
       roundTo2 (((|lat| - (⌊|lat|⌋ : ℚ)) * 60 -
         (⌊(|lat| - (⌊|lat|⌋ : ℚ)) * 60⌋ : ℚ)) * 60) ∧
     (decimalToDMS lat lng).latitude.direction = (if 0 ≤ lat then "N" else "S") ∧
     |dmsToDecimal ((decimalToDMS lat lng).latitude) - lat| ≤ 1 / 360000) ∧
    ((decimalToDMS lat lng).longitude.degrees = ⌊|lng|⌋ ∧
     (decimalToDMS lat lng).longitude.minutes = ⌊(|lng| - (⌊|lng|⌋ : ℚ)) * 60⌋ ∧
     (decimalToDMS lat lng).longitude.seconds =
       roundTo2 (((|lng| - (⌊|lng|⌋ : ℚ)) * 60 -
         (⌊(|lng| - (⌊|lng|⌋ : ℚ)) * 60⌋ : ℚ)) * 60) ∧
     (decimalToDMS lat lng).longitude.direction = (if 0 ≤ lng then "E" else "W") ∧
     |dmsToDecimal ((decimalToDMS lat lng).longitude) - lng| ≤ 1 / 360000) :=
  ⟨toDMSRoundTrip lat true, toDMSRoundTrip lng false⟩

/-- C10: the four numeric CSV cells go through the falsy-or-empty idiom,
so a value of exactly 0 is written as the empty string — identical to
the cell of a log with no position fix at all. -/
theorem csvZeroCoordinateEmpty (log : LogRecord) :
    (csvRow log)[4]? = some (numCell log.latitude) ∧
    (csvRow log)[5]? = some (numCell log.longitude) ∧
    (csvRow log)[6]? = some (numCell log.accuracy) ∧
    (csvRow log)[7]? = some (numCell log.altitude) ∧
    numCell (some 0) = "" ∧
    numCell none = "" :=
  ⟨rfl, rfl, rfl, rfl, rfl, rfl⟩

end TraceCam
